import Mathlib

/-!
Shallow embedding of the identity-reconciliation and authorization core of
`src/server.js` (an Express OAuth2 login server).

The in-memory store `const users = new Map()` is modelled as a `List Identity`
(the map's values in insertion order; keys are always the `id` field, since the
only insertion is `users.set(newUser.id, newUser)`).  `crypto.randomUUID()` is
modelled by a caller-supplied fresh identifier, `new Date()` by a caller-supplied
`Nat` timestamp.  JavaScript `undefined`/`null` string fields are modelled by
`Option String`.  The `jsonwebtoken` library is external to the repository; its
`verify` is modelled abstractly by a caller-supplied decode function mapping a
token string to its decoded shape (malformed, or a signed payload), with the
expiry check `now < expiresAt` as in the spec's half-open validity interval.
-/

namespace OAuthServer

/-- JavaScript truthiness of an optional string: `undefined`, `null` and the
empty string are falsy. -/
def jsTruthy : Option String → Bool
  | none => false
  | some s => !(s == "")

/-- JavaScript `a || b` on optional strings (`profile.displayName || profile.username`). -/
def jsOr (a b : Option String) : Option String :=
  if jsTruthy a then a else b

/-- A local user record, as built by the strategy verify callbacks in
`src/server.js` (lines 87-98 and 125-136).  Google-created users carry no
`githubId` property and vice versa, modelled by `Option`. -/
structure Identity where
  id : Nat
  googleId : Option String
  githubId : Option String
  email : Option String
  name : Option String
  avatar : String
  provider : String
  accessToken : String
  refreshToken : String
  createdAt : Nat
  lastLogin : Nat
deriving Repr, DecidableEq

/-- The fields of a Google passport profile read by the verify callback:
`profile.id`, `profile.displayName`, `profile.emails` (a possibly-undefined
array of entries whose `.value` we keep), `profile.photos` likewise. -/
structure GoogleProfile where
  id : String
  displayName : Option String
  emails : Option (List String)
  photos : Option (List String)
deriving Repr, DecidableEq

/-- The fields of a GitHub passport profile read by the verify callback. -/
structure GitHubProfile where
  id : String
  displayName : Option String
  username : Option String
  emails : Option (List String)
  photos : Option (List String)
deriving Repr, DecidableEq

/-- `user.googleId === profile.id` for a defined subject id `s`. -/
def isGoogleSubject (s : String) (u : Identity) : Bool :=
  u.googleId == some s

/-- `user.githubId === profile.id` for a defined subject id `s`. -/
def isGitHubSubject (s : String) (u : Identity) : Bool :=
  u.githubId == some s

/-- The in-place mutation of the found user in the existing-user branch:
`existingUser.lastLogin = new Date(); existingUser.accessToken = accessToken`. -/
def touchLogin (now : Nat) (accessToken : String) (u : Identity) : Identity :=
  { u with lastLogin := now, accessToken := accessToken }

/-- Replace the first element satisfying `p` by its image under `f`: the JS
mutation of the object returned by `Array.from(users.values()).find(...)`. -/
def replaceFirst (p : α → Bool) (f : α → α) : List α → List α
  | [] => []
  | a :: l => if p a then f a :: l else a :: replaceFirst p f l

/-- The `newUser` object literal of the Google callback (`src/server.js`
lines 87-98), given the first email value `e` and first photo value `ph`. -/
def googleNewUser (freshId now : Nat) (accessToken refreshToken : String)
    (profile : GoogleProfile) (e ph : String) : Identity :=
  { id := freshId, googleId := some profile.id, githubId := none,
    email := some e, name := profile.displayName, avatar := ph,
    provider := "google", accessToken := accessToken,
    refreshToken := refreshToken, createdAt := now, lastLogin := now }

/-- The Google strategy verify callback (`src/server.js` lines 75-105).
Returns `none` when the callback calls `done(error, null)` — which happens
exactly when building `newUser` throws, i.e. when `profile.emails[0].value`
or `profile.photos[0].value` dereferences an undefined value.  On success it
returns the identity passed to `done` and the updated store. -/
def googleVerify (users : List Identity) (freshId now : Nat)
    (accessToken refreshToken : String) (profile : GoogleProfile) :
    Option (Identity × List Identity) :=
  match users.find? (isGoogleSubject profile.id) with
  | some u =>
    some (touchLogin now accessToken u,
      replaceFirst (isGoogleSubject profile.id) (touchLogin now accessToken) users)
  | none =>
    match profile.emails, profile.photos with
    | some (e :: _), some (ph :: _) =>
      some (googleNewUser freshId now accessToken refreshToken profile e ph,
        users ++ [googleNewUser freshId now accessToken refreshToken profile e ph])
    | _, _ => none

/-- `profile.emails ? profile.emails[0].value : null` — note that an empty
array is truthy in JS, so `some []` reaches `[0].value` and throws. -/
def githubEmail : Option (List String) → Option (Option String)
  | none => some none
  | some [] => none
  | some (e :: _) => some (some e)

/-- The `newUser` object literal of the GitHub callback (`src/server.js`
lines 125-136), given the computed email value `em` and first photo `ph`. -/
def githubNewUser (freshId now : Nat) (accessToken refreshToken : String)
    (profile : GitHubProfile) (em : Option String) (ph : String) : Identity :=
  { id := freshId, googleId := none, githubId := some profile.id,
    email := em, name := jsOr profile.displayName profile.username,
    avatar := ph, provider := "github", accessToken := accessToken,
    refreshToken := refreshToken, createdAt := now, lastLogin := now }

/-- The GitHub strategy verify callback (`src/server.js` lines 113-143). -/
def githubVerify (users : List Identity) (freshId now : Nat)
    (accessToken refreshToken : String) (profile : GitHubProfile) :
    Option (Identity × List Identity) :=
  match users.find? (isGitHubSubject profile.id) with
  | some u =>
    some (touchLogin now accessToken u,
      replaceFirst (isGitHubSubject profile.id) (touchLogin now accessToken) users)
  | none =>
    match githubEmail profile.emails, profile.photos with
    | some em, some (ph :: _) =>
      some (githubNewUser freshId now accessToken refreshToken profile em ph,
        users ++ [githubNewUser freshId now accessToken refreshToken profile em ph])
    | _, _ => none

/-- One provider callback invocation with its runtime-supplied fresh id,
timestamp and provider credentials. -/
inductive ReconcileOp where
  | google (freshId now : Nat) (accessToken refreshToken : String) (profile : GoogleProfile)
  | github (freshId now : Nat) (accessToken refreshToken : String) (profile : GitHubProfile)
deriving Repr

/-- Effect of one callback on the store (a failed callback leaves the store
unchanged: the throw happens before `users.set`). -/
def applyOp (users : List Identity) : ReconcileOp → List Identity
  | .google f n a r p =>
    match googleVerify users f n a r p with
    | some (_, users') => users'
    | none => users
  | .github f n a r p =>
    match githubVerify users f n a r p with
    | some (_, users') => users'
    | none => users

/-- A sequence of callbacks run one after another on the store.  In the source
each callback body contains no `await` between the lookup and `users.set`, so
under Node's run-to-completion event loop any set of concurrent callbacks
executes as some sequential composition, which this folds over. -/
def runOps (users : List Identity) (ops : List ReconcileOp) : List Identity :=
  ops.foldl applyOp users

/-- `users.get(id)` — keys of the map are the `id` fields of its values. -/
def usersGet (users : List Identity) (i : Nat) : Option Identity :=
  users.find? (fun u => u.id == i)

/-- `passport.serializeUser`: `done(null, user.id)`. -/
def serializeUser (u : Identity) : Nat :=
  u.id

/-- `passport.deserializeUser`: `done(null, users.get(id))` — absence flows
through as `undefined` without an error. -/
def deserializeUser (users : List Identity) (i : Nat) : Option Identity :=
  usersGet users i

/-- The JWT payload fields signed at login (`jwt.sign({id, email, name, provider}, ...)`). -/
structure Claims where
  id : Nat
  email : Option String
  name : Option String
  provider : String
deriving Repr, DecidableEq

/-- A signed token's content: its claims and its expiry instant. -/
structure TokenPayload where
  claims : Claims
  expiresAt : Nat
deriving Repr, DecidableEq

/-- What a presented token string decodes to: structurally invalid, or a
payload together with whether its signature checks out against the secret. -/
inductive TokenString where
  | malformed
  | signed (payload : TokenPayload) (sigOk : Bool)
deriving Repr, DecidableEq

/-- The two failure kinds of `jwt.verify`. -/
inductive VerifyError where
  | malformed
  | expired
deriving Repr, DecidableEq

/-- Model of `jwt.verify(token, secret, cb)`: an absent (`undefined`) token, a
structurally invalid token or a bad signature yield a malformed error; a
well-signed token past its expiry yields an expired error; otherwise the
claims are returned.  Validity is the half-open interval up to `expiresAt`. -/
def jwtVerify (decode : String → TokenString) (tok : Option String) (now : Nat) :
    Except VerifyError Claims :=
  match tok with
  | none => .error .malformed
  | some s =>
    match decode s with
    | .malformed => .error .malformed
    | .signed p sigOk =>
      if sigOk then
        if now < p.expiresAt then .ok p.claims else .error .expired
      else .error .malformed

/-- Outcome of the JWT middleware: pass-through with `req.user = user`, or an
HTTP rejection with a status and a JSON error string. -/
inductive AuthResult where
  | ok (user : Claims)
  | rejected (status : Nat) (reason : String)
deriving Repr, DecidableEq

/-- JavaScript `s.split(' ')` on a list of characters: splits at every single
space character, keeping empty pieces. -/
def splitSpAux : List Char → List (List Char)
  | [] => [[]]
  | c :: cs =>
    let r := splitSpAux cs
    if c = ' ' then [] :: r
    else
      match r with
      | h :: t => (c :: h) :: t
      | [] => [[c]]

/-- JavaScript `authHeader.split(' ')`. -/
def jsSplitSpace (s : String) : List String :=
  (splitSpAux s.data).map (fun l => String.mk l)

/-- The `authenticateJWT` middleware (`src/server.js` lines 146-163).  A falsy
header (absent or empty string) yields 401; otherwise the second
space-separated part of the header (or `undefined` when there is none) is
verified, with every verification error mapped to the same 403 response. -/
def authenticateJWT (decode : String → TokenString) (now : Nat)
    (authHeader : Option String) : AuthResult :=
  if jsTruthy authHeader then
    match jwtVerify decode ((jsSplitSpace (authHeader.getD ""))[1]?) now with
    | .ok c => .ok c
    | .error _ => .rejected 403 "Token non valido"
  else
    .rejected 401 "Token di accesso richiesto"

/-- A concrete Google profile with all optional fields present. -/
def gProfileAnn : GoogleProfile :=
  { id := "g-42", displayName := some "Ann", emails := some ["a@x.com"], photos := some ["A"] }

/-- A concrete Google profile whose provider withheld the email. -/
def gProfileNoEmail : GoogleProfile :=
  { id := "g-77", displayName := some "Bob", emails := none, photos := some ["B"] }

/-- A concrete Google profile for the same subject as `gProfileAnn` but with a
fresh non-empty email, display name and avatar. -/
def gProfileAnnNew : GoogleProfile :=
  { id := "g-42", displayName := some "Ann Barr", emails := some ["b@y.com"], photos := some ["B"] }

/-- A concrete GitHub profile with no email and no display name. -/
def hProfileBare : GitHubProfile :=
  { id := "h-9", displayName := none, username := some "ann42", emails := none, photos := some ["H"] }

/-- A concrete GitHub profile whose subject id is the same literal string as
`gProfileAnn`'s. -/
def hProfileSameId : GitHubProfile :=
  { id := "g-42", displayName := some "Imp", username := some "imp",
    emails := some ["i@z.com"], photos := some ["I"] }

/-- Concrete claims used by the token examples. -/
def claimsAnn : Claims :=
  { id := 7, email := some "a@x.com", name := some "Ann", provider := "google" }

/-- A concrete decode function: one token string carries a validly signed
payload that expires at time 5, one carries a validly signed payload that
expires at time 100, everything else is malformed. -/
def decodeEx : String → TokenString := fun s =>
  if s == "staletok" then .signed { claims := claimsAnn, expiresAt := 5 } true
  else if s == "goodtok" then .signed { claims := claimsAnn, expiresAt := 100 } true
  else .malformed

/-- An operation that is a Google callback for subject `s` whose profile is
well-formed enough for the new-user branch to succeed (non-empty emails and
photos arrays). -/
def googleOpFor (s : String) : ReconcileOp → Bool
  | .google _ _ _ _ p =>
      p.id == s &&
      (match p.emails with | some (_ :: _) => true | _ => false) &&
      (match p.photos with | some (_ :: _) => true | _ => false)
  | .github _ _ _ _ _ => false

/-- An operation that is a GitHub callback for subject `s` whose profile is
well-formed enough for the new-user branch to succeed. -/
def githubOpFor (s : String) : ReconcileOp → Bool
  | .github _ _ _ _ p =>
      p.id == s &&
      (match githubEmail p.emails with | some _ => true | none => false) &&
      (match p.photos with | some (_ :: _) => true | _ => false)
  | .google _ _ _ _ _ => false

/-- Number of stored identities linked to Google subject `s`. -/
def countGoogle (users : List Identity) (s : String) : Nat :=
  users.countP (isGoogleSubject s)

/-- Number of stored identities linked to GitHub subject `s`. -/
def countGitHub (users : List Identity) (s : String) : Nat :=
  users.countP (isGitHubSubject s)

/-- The provider-subject uniqueness invariant: for every subject id, at most
one stored identity is linked to it under each provider. -/
def UniqueProviderSubjects (users : List Identity) : Prop :=
  ∀ s, countGoogle users s ≤ 1 ∧ countGitHub users s ≤ 1

@[simp] theorem touchLogin_googleId (n : Nat) (a : String) (u : Identity) :
    (touchLogin n a u).googleId = u.googleId := rfl

@[simp] theorem touchLogin_githubId (n : Nat) (a : String) (u : Identity) :
    (touchLogin n a u).githubId = u.githubId := rfl

@[simp] theorem touchLogin_id (n : Nat) (a : String) (u : Identity) :
    (touchLogin n a u).id = u.id := rfl

@[simp] theorem touchLogin_email (n : Nat) (a : String) (u : Identity) :
    (touchLogin n a u).email = u.email := rfl

@[simp] theorem touchLogin_name (n : Nat) (a : String) (u : Identity) :
    (touchLogin n a u).name = u.name := rfl

@[simp] theorem touchLogin_avatar (n : Nat) (a : String) (u : Identity) :
    (touchLogin n a u).avatar = u.avatar := rfl

@[simp] theorem touchLogin_lastLogin (n : Nat) (a : String) (u : Identity) :
    (touchLogin n a u).lastLogin = n := rfl

@[simp] theorem touchLogin_accessToken (n : Nat) (a : String) (u : Identity) :
    (touchLogin n a u).accessToken = a := rfl

@[simp] theorem isGoogleSubject_touchLogin (s : String) (n : Nat) (a : String) (u : Identity) :
    isGoogleSubject s (touchLogin n a u) = isGoogleSubject s u := rfl

@[simp] theorem isGitHubSubject_touchLogin (s : String) (n : Nat) (a : String) (u : Identity) :
    isGitHubSubject s (touchLogin n a u) = isGitHubSubject s u := rfl

theorem countP_replaceFirst {p q : α → Bool} {f : α → α}
    (hq : ∀ x, q (f x) = q x) : ∀ l : List α,
    (replaceFirst p f l).countP q = l.countP q := by
  intro l
  induction l with
  | nil => rfl
  | cons a l ih =>
    by_cases h : p a
    · simp [replaceFirst, h, List.countP_cons, hq]
    · simp [replaceFirst, h, List.countP_cons, ih]

theorem find?_replaceFirst {p : α → Bool} {f : α → α}
    (hp : ∀ x, p (f x) = p x) : ∀ l : List α,
    (replaceFirst p f l).find? p = (l.find? p).map f := by
  intro l
  induction l with
  | nil => rfl
  | cons a l ih =>
    by_cases h : p a
    · simp [replaceFirst, h, List.find?_cons, hp]
    · simp [replaceFirst, h, List.find?_cons, ih]

theorem find?_append_of_none {p : α → Bool} {l₁ : List α} (l₂ : List α)
    (h : l₁.find? p = none) : (l₁ ++ l₂).find? p = l₂.find? p := by
  induction l₁ with
  | nil => rfl
  | cons a l ih =>
    by_cases ha : p a
    · simp [List.find?_cons, ha] at h
    · rw [List.find?_cons_of_neg _ (by simp [ha])] at h
      rw [List.cons_append, List.find?_cons_of_neg _ (by simp [ha])]
      exact ih h

theorem isGoogleSubject_googleNewUser (f n : Nat) (a r : String)
    (p : GoogleProfile) (e ph : String) :
    isGoogleSubject p.id (googleNewUser f n a r p e ph) = true := by
  simp [isGoogleSubject, googleNewUser]

theorem isGitHubSubject_googleNewUser (s : String) (f n : Nat) (a r : String)
    (p : GoogleProfile) (e ph : String) :
    isGitHubSubject s (googleNewUser f n a r p e ph) = false := by
  simp [isGitHubSubject, googleNewUser]

theorem isGitHubSubject_githubNewUser (f n : Nat) (a r : String)
    (p : GitHubProfile) (em : Option String) (ph : String) :
    isGitHubSubject p.id (githubNewUser f n a r p em ph) = true := by
  simp [isGitHubSubject, githubNewUser]

theorem isGoogleSubject_githubNewUser (s : String) (f n : Nat) (a r : String)
    (p : GitHubProfile) (em : Option String) (ph : String) :
    isGoogleSubject s (githubNewUser f n a r p em ph) = false := by
  simp [isGoogleSubject, githubNewUser]

theorem googleVerify_find_some (users : List Identity) (f n : Nat) (a r : String)
    (p : GoogleProfile) (u : Identity)
    (hfind : users.find? (isGoogleSubject p.id) = some u) :
    googleVerify users f n a r p =
      some (touchLogin n a u,
        replaceFirst (isGoogleSubject p.id) (touchLogin n a) users) := by
  simp [googleVerify, hfind]

theorem googleVerify_find_none (users : List Identity) (f n : Nat) (a r : String)
    (p : GoogleProfile) (e : String) (es : List String) (ph : String) (phs : List String)
    (hfind : users.find? (isGoogleSubject p.id) = none)
    (hem : p.emails = some (e :: es)) (hph : p.photos = some (ph :: phs)) :
    googleVerify users f n a r p =
      some (googleNewUser f n a r p e ph, users ++ [googleNewUser f n a r p e ph]) := by
  simp [googleVerify, hfind, hem, hph]

theorem githubVerify_find_some (users : List Identity) (f n : Nat) (a r : String)
    (p : GitHubProfile) (u : Identity)
    (hfind : users.find? (isGitHubSubject p.id) = some u) :
    githubVerify users f n a r p =
      some (touchLogin n a u,
        replaceFirst (isGitHubSubject p.id) (touchLogin n a) users) := by
  simp [githubVerify, hfind]

theorem githubVerify_find_none (users : List Identity) (f n : Nat) (a r : String)
    (p : GitHubProfile) (em : Option String) (ph : String) (phs : List String)
    (hfind : users.find? (isGitHubSubject p.id) = none)
    (hem : githubEmail p.emails = some em) (hph : p.photos = some (ph :: phs)) :
    githubVerify users f n a r p =
      some (githubNewUser f n a r p em ph, users ++ [githubNewUser f n a r p em ph]) := by
  simp [githubVerify, hfind, hem, hph]

theorem googleVerify_eq_some (users : List Identity) (f n : Nat) (a r : String)
    (p : GoogleProfile) (u1 : Identity) (s1 : List Identity)
    (h : googleVerify users f n a r p = some (u1, s1)) :
    (∃ u, users.find? (isGoogleSubject p.id) = some u ∧
      u1 = touchLogin n a u ∧
      s1 = replaceFirst (isGoogleSubject p.id) (touchLogin n a) users) ∨
    (∃ e es ph phs, users.find? (isGoogleSubject p.id) = none ∧
      p.emails = some (e :: es) ∧ p.photos = some (ph :: phs) ∧
      u1 = googleNewUser f n a r p e ph ∧ s1 = users ++ [u1]) := by
  cases hfind : users.find? (isGoogleSubject p.id) with
  | some u =>
    rw [googleVerify_find_some users f n a r p u hfind] at h
    obtain ⟨h1, h2⟩ := Prod.mk.injEq .. ▸ Option.some.injEq .. ▸ h
    exact .inl ⟨u, rfl, h1.symm, h2.symm⟩
  | none =>
    match hem : p.emails, hph : p.photos with
    | none, _ => simp [googleVerify, hfind, hem] at h
    | some [], _ => simp [googleVerify, hfind, hem] at h
    | some (e :: es), none => simp [googleVerify, hfind, hem, hph] at h
    | some (e :: es), some [] => simp [googleVerify, hfind, hem, hph] at h
    | some (e :: es), some (ph :: phs) =>
      rw [googleVerify_find_none users f n a r p e es ph phs hfind hem hph] at h
      obtain ⟨h1, h2⟩ := Prod.mk.injEq .. ▸ Option.some.injEq .. ▸ h
      subst h1
      subst h2
      exact .inr ⟨e, es, ph, phs, by simp [hfind], by simp, by simp, rfl, rfl⟩

theorem githubVerify_eq_some (users : List Identity) (f n : Nat) (a r : String)
    (p : GitHubProfile) (u1 : Identity) (s1 : List Identity)
    (h : githubVerify users f n a r p = some (u1, s1)) :
    (∃ u, users.find? (isGitHubSubject p.id) = some u ∧
      u1 = touchLogin n a u ∧
      s1 = replaceFirst (isGitHubSubject p.id) (touchLogin n a) users) ∨
    (∃ em ph phs, users.find? (isGitHubSubject p.id) = none ∧
      githubEmail p.emails = some em ∧ p.photos = some (ph :: phs) ∧
      u1 = githubNewUser f n a r p em ph ∧ s1 = users ++ [u1]) := by
  cases hfind : users.find? (isGitHubSubject p.id) with
  | some u =>
    rw [githubVerify_find_some users f n a r p u hfind] at h
    obtain ⟨h1, h2⟩ := Prod.mk.injEq .. ▸ Option.some.injEq .. ▸ h
    exact .inl ⟨u, rfl, h1.symm, h2.symm⟩
  | none =>
    match hem : githubEmail p.emails, hph : p.photos with
    | none, _ => simp [githubVerify, hfind, hem] at h
    | some em, none => simp [githubVerify, hfind, hem, hph] at h
    | some em, some [] => simp [githubVerify, hfind, hem, hph] at h
    | some em, some (ph :: phs) =>
      rw [githubVerify_find_none users f n a r p em ph phs hfind hem hph] at h
      obtain ⟨h1, h2⟩ := Prod.mk.injEq .. ▸ Option.some.injEq .. ▸ h
      subst h1
      subst h2
      exact .inr ⟨em, ph, phs, by simp [hfind], by simp [hem], by simp [hph], rfl, rfl⟩

theorem countGoogle_applyOp_le (users : List Identity) (op : ReconcileOp) (s : String) :
    countGoogle (applyOp users op) s ≤ max (countGoogle users s) 1 := by
  cases op with
  | google f n a r p =>
    cases hfind : users.find? (isGoogleSubject p.id) with
    | some u =>
      simp [applyOp, googleVerify, hfind, countGoogle,
        countP_replaceFirst (fun x => isGoogleSubject_touchLogin s n a x)]
    | none =>
      match hem : p.emails, hph : p.photos with
      | none, _ => simp [applyOp, googleVerify, hfind, hem]
      | some [], _ => simp [applyOp, googleVerify, hfind, hem]
      | some (e :: es), none => simp [applyOp, googleVerify, hfind, hem, hph]
      | some (e :: es), some [] => simp [applyOp, googleVerify, hfind, hem, hph]
      | some (e :: es), some (ph :: phs) =>
        by_cases hs : p.id = s
        · subst hs
          simp [applyOp, googleVerify, hfind, hem, hph, countGoogle, googleNewUser,
            List.countP_append, List.countP_cons, isGoogleSubject]
          intro x hx
          have hx2 := List.find?_eq_none.mp hfind x hx
          simpa [isGoogleSubject] using hx2
        · simp [applyOp, googleVerify, hfind, hem, hph, countGoogle, googleNewUser,
            List.countP_append, List.countP_cons, isGoogleSubject, hs]
  | github f n a r p =>
    cases hfind : users.find? (isGitHubSubject p.id) with
    | some u =>
      simp [applyOp, githubVerify, hfind, countGoogle,
        countP_replaceFirst (fun x => isGoogleSubject_touchLogin s n a x)]
    | none =>
      match hem : githubEmail p.emails, hph : p.photos with
      | none, _ => simp [applyOp, githubVerify, hfind, hem]
      | some em, none => simp [applyOp, githubVerify, hfind, hem, hph]
      | some em, some [] => simp [applyOp, githubVerify, hfind, hem, hph]
      | some em, some (ph :: phs) =>
        simp [applyOp, githubVerify, hfind, hem, hph, countGoogle, githubNewUser,
          List.countP_append, List.countP_cons, isGoogleSubject]

theorem countGitHub_applyOp_le (users : List Identity) (op : ReconcileOp) (s : String) :
    countGitHub (applyOp users op) s ≤ max (countGitHub users s) 1 := by
  cases op with
  | google f n a r p =>
    cases hfind : users.find? (isGoogleSubject p.id) with
    | some u =>
      simp [applyOp, googleVerify, hfind, countGitHub,
        countP_replaceFirst (fun x => isGitHubSubject_touchLogin s n a x)]
    | none =>
      match hem : p.emails, hph : p.photos with
      | none, _ => simp [applyOp, googleVerify, hfind, hem]
      | some [], _ => simp [applyOp, googleVerify, hfind, hem]
      | some (e :: es), none => simp [applyOp, googleVerify, hfind, hem, hph]
      | some (e :: es), some [] => simp [applyOp, googleVerify, hfind, hem, hph]
      | some (e :: es), some (ph :: phs) =>
        simp [applyOp, googleVerify, hfind, hem, hph, countGitHub, googleNewUser,
          List.countP_append, List.countP_cons, isGitHubSubject]
  | github f n a r p =>
    cases hfind : users.find? (isGitHubSubject p.id) with
    | some u =>
      simp [applyOp, githubVerify, hfind, countGitHub,
        countP_replaceFirst (fun x => isGitHubSubject_touchLogin s n a x)]
    | none =>
      match hem : githubEmail p.emails, hph : p.photos with
      | none, _ => simp [applyOp, githubVerify, hfind, hem]
      | some em, none => simp [applyOp, githubVerify, hfind, hem, hph]
      | some em, some [] => simp [applyOp, githubVerify, hfind, hem, hph]
      | some em, some (ph :: phs) =>
        by_cases hs : p.id = s
        · subst hs
          simp [applyOp, githubVerify, hfind, hem, hph, countGitHub, githubNewUser,
            List.countP_append, List.countP_cons, isGitHubSubject]
          intro x hx
          have hx2 := List.find?_eq_none.mp hfind x hx
          simpa [isGitHubSubject] using hx2
        · simp [applyOp, githubVerify, hfind, hem, hph, countGitHub, githubNewUser,
            List.countP_append, List.countP_cons, isGitHubSubject, hs]

theorem uniqueProviderSubjects_applyOp (users : List Identity) (op : ReconcileOp)
    (h : UniqueProviderSubjects users) : UniqueProviderSubjects (applyOp users op) := by
  intro s
  have h1 := countGoogle_applyOp_le users op s
  have h2 := countGitHub_applyOp_le users op s
  have h3 := h s
  omega

theorem uniqueProviderSubjects_runOps (ops : List ReconcileOp) :
    ∀ users : List Identity, UniqueProviderSubjects users →
    UniqueProviderSubjects (runOps users ops) := by
  induction ops with
  | nil => exact fun users h => h
  | cons op ops ih =>
    intro users h
    exact ih (applyOp users op) (uniqueProviderSubjects_applyOp users op h)

theorem googleVerify_fst_lastLogin (users : List Identity) (f n : Nat) (a r : String)
    (p : GoogleProfile) (u1 : Identity) (s1 : List Identity)
    (h : googleVerify users f n a r p = some (u1, s1)) : u1.lastLogin = n := by
  rcases googleVerify_eq_some users f n a r p u1 s1 h with
    ⟨u, _, hu, _⟩ | ⟨e, es, ph, phs, _, _, _, hu, _⟩ <;> subst hu <;> rfl

theorem githubVerify_fst_lastLogin (users : List Identity) (f n : Nat) (a r : String)
    (p : GitHubProfile) (u1 : Identity) (s1 : List Identity)
    (h : githubVerify users f n a r p = some (u1, s1)) : u1.lastLogin = n := by
  rcases githubVerify_eq_some users f n a r p u1 s1 h with
    ⟨u, _, hu, _⟩ | ⟨em, ph, phs, _, _, _, hu, _⟩ <;> subst hu <;> rfl

theorem googleVerify_second (users : List Identity) (f1 f2 t1 t2 : Nat)
    (a1 a2 r1 r2 : String) (p : GoogleProfile) (u1 : Identity) (s1 : List Identity)
    (h1 : googleVerify users f1 t1 a1 r1 p = some (u1, s1)) :
    googleVerify s1 f2 t2 a2 r2 p =
      some (touchLogin t2 a2 u1,
        replaceFirst (isGoogleSubject p.id) (touchLogin t2 a2) s1) := by
  rcases googleVerify_eq_some users f1 t1 a1 r1 p u1 s1 h1 with
    ⟨u, hfind, hu, hs⟩ | ⟨e, es, ph, phs, hfind, hem, hph, hu, hs⟩
  · subst hu; subst hs
    exact googleVerify_find_some _ f2 t2 a2 r2 p _ (by
      rw [find?_replaceFirst (fun x => isGoogleSubject_touchLogin p.id t1 a1 x), hfind]
      rfl)
  · subst hu; subst hs
    exact googleVerify_find_some _ f2 t2 a2 r2 p _ (by
      rw [find?_append_of_none _ hfind]
      simp [List.find?_cons, isGoogleSubject_googleNewUser])

theorem githubVerify_second (users : List Identity) (f1 f2 t1 t2 : Nat)
    (a1 a2 r1 r2 : String) (p : GitHubProfile) (u1 : Identity) (s1 : List Identity)
    (h1 : githubVerify users f1 t1 a1 r1 p = some (u1, s1)) :
    githubVerify s1 f2 t2 a2 r2 p =
      some (touchLogin t2 a2 u1,
        replaceFirst (isGitHubSubject p.id) (touchLogin t2 a2) s1) := by
  rcases githubVerify_eq_some users f1 t1 a1 r1 p u1 s1 h1 with
    ⟨u, hfind, hu, hs⟩ | ⟨em, ph, phs, hfind, hem, hph, hu, hs⟩
  · subst hu; subst hs
    exact githubVerify_find_some _ f2 t2 a2 r2 p _ (by
      rw [find?_replaceFirst (fun x => isGitHubSubject_touchLogin p.id t1 a1 x), hfind]
      rfl)
  · subst hu; subst hs
    exact githubVerify_find_some _ f2 t2 a2 r2 p _ (by
      rw [find?_append_of_none _ hfind]
      simp [List.find?_cons, isGitHubSubject_githubNewUser])

/-- C1: for every sequence of reconcile operations (Google or GitHub verify
callbacks) executed one after another on the identity store, starting from the
empty store the code initializes, no two stored identities hold the same
provider subject id for the same provider: at most one identity has
`googleId = s` and at most one has `githubId = s`, for every subject id `s`. -/
theorem c1_provider_subject_uniqueness (ops : List ReconcileOp) :
    UniqueProviderSubjects (runOps [] ops) :=
  uniqueProviderSubjects_runOps ops []
    (fun _ => by simp [countGoogle, countGitHub])

/-- C2: for every (provider, subjectId, profile), calling reconcile twice in
sequence (with a non-decreasing clock) yields an identity with the same id
both times, and the `lastLogin` timestamp of the resulting identity is
monotonically non-decreasing across the two calls. -/
theorem c2_idempotent_reconciliation :
    (∀ (users : List Identity) (f1 f2 t1 t2 : Nat) (a1 a2 r1 r2 : String)
        (p : GoogleProfile) (u1 : Identity) (s1 : List Identity),
        googleVerify users f1 t1 a1 r1 p = some (u1, s1) → t1 ≤ t2 →
        ∃ u2 s2, googleVerify s1 f2 t2 a2 r2 p = some (u2, s2) ∧
          u2.id = u1.id ∧ u1.lastLogin ≤ u2.lastLogin) ∧
    (∀ (users : List Identity) (f1 f2 t1 t2 : Nat) (a1 a2 r1 r2 : String)
        (p : GitHubProfile) (u1 : Identity) (s1 : List Identity),
        githubVerify users f1 t1 a1 r1 p = some (u1, s1) → t1 ≤ t2 →
        ∃ u2 s2, githubVerify s1 f2 t2 a2 r2 p = some (u2, s2) ∧
          u2.id = u1.id ∧ u1.lastLogin ≤ u2.lastLogin) := by
  constructor
  · intro users f1 f2 t1 t2 a1 a2 r1 r2 p u1 s1 h1 ht
    refine ⟨_, _, googleVerify_second users f1 f2 t1 t2 a1 a2 r1 r2 p u1 s1 h1, rfl, ?_⟩
    rw [googleVerify_fst_lastLogin users f1 t1 a1 r1 p u1 s1 h1]
    simpa using ht
  · intro users f1 f2 t1 t2 a1 a2 r1 r2 p u1 s1 h1 ht
    refine ⟨_, _, githubVerify_second users f1 f2 t1 t2 a1 a2 r1 r2 p u1 s1 h1, rfl, ?_⟩
    rw [githubVerify_fst_lastLogin users f1 t1 a1 r1 p u1 s1 h1]
    simpa using ht

/-- Witness for C2: two Google logins for subject `g-42` at times 3 then 4,
starting from the empty store. -/
theorem c2_idempotent_reconciliation_witness :
    ∃ u2 s2,
      googleVerify [googleNewUser 0 3 "a1" "r1" gProfileAnn "a@x.com" "A"] 9 4 "a2" "r2"
        gProfileAnn = some (u2, s2) ∧
      u2.id = (googleNewUser 0 3 "a1" "r1" gProfileAnn "a@x.com" "A").id ∧
      (googleNewUser 0 3 "a1" "r1" gProfileAnn "a@x.com" "A").lastLogin ≤ u2.lastLogin :=
  c2_idempotent_reconciliation.1 [] 0 9 3 4 "a1" "a2" "r1" "r2" gProfileAnn
    (googleNewUser 0 3 "a1" "r1" gProfileAnn "a@x.com" "A")
    [googleNewUser 0 3 "a1" "r1" gProfileAnn "a@x.com" "A"] rfl (by decide)

/-- C7: for every identity present in the store, deserializing its serialized
session reference returns the same identity (all fields equal); and for a
session reference whose identity is no longer in the store, deserialization
returns absence (`undefined` via `done(null, users.get(id))`), not an error. -/
theorem c7_codec_round_trip_and_tombstone :
    (∀ (users : List Identity) (i : Identity),
        usersGet users i.id = some i →
        deserializeUser users (serializeUser i) = some i) ∧
    (∀ (users : List Identity) (pid : Nat),
        usersGet users pid = none → deserializeUser users pid = none) :=
  ⟨fun _ _ h => h, fun _ _ h => h⟩

/-- Witness for C7: a one-element store round-trips its identity, and the
empty store (identity removed) deserializes to absence. -/
theorem c7_codec_round_trip_and_tombstone_witness :
    deserializeUser [googleNewUser 4 0 "a" "r" gProfileAnn "a@x.com" "A"]
      (serializeUser (googleNewUser 4 0 "a" "r" gProfileAnn "a@x.com" "A")) =
      some (googleNewUser 4 0 "a" "r" gProfileAnn "a@x.com" "A") ∧
    deserializeUser [] 4 = none :=
  ⟨c7_codec_round_trip_and_tombstone.1 _ _ (by decide),
   c7_codec_round_trip_and_tombstone.2 [] 4 rfl⟩

/-- C8: reconciling the same literal subject id under Google and then under
GitHub (the subject being new to both providers, with distinct fresh ids
supplied by `crypto.randomUUID`) produces two distinct identities with
different ids — the two provider lookups inspect different fields. -/
theorem c8_cross_provider_non_collision :
    ∀ (users : List Identity) (f1 f2 t1 t2 : Nat) (a1 a2 r1 r2 : String)
      (s : String) (pg : GoogleProfile) (hp : GitHubProfile)
      (u1 : Identity) (s1 : List Identity) (u2 : Identity) (s2 : List Identity),
      pg.id = s → hp.id = s →
      countGoogle users s = 0 → countGitHub users s = 0 →
      f1 ≠ f2 →
      googleVerify users f1 t1 a1 r1 pg = some (u1, s1) →
      githubVerify s1 f2 t2 a2 r2 hp = some (u2, s2) →
      u1.id ≠ u2.id ∧ u1 ≠ u2 := by
  intro users f1 f2 t1 t2 a1 a2 r1 r2 s pg hp u1 s1 u2 s2 hpg hhp hcg hch hf h1 h2
  subst hpg
  have hfind1 : users.find? (isGoogleSubject pg.id) = none :=
    List.find?_eq_none.mpr (List.countP_eq_zero.mp hcg)
  rcases googleVerify_eq_some users f1 t1 a1 r1 pg u1 s1 h1 with
    ⟨u, hfind, _, _⟩ | ⟨e, es, ph1, phs1, _, hem1, hph1, hu1, hs1⟩
  · rw [hfind1] at hfind; exact absurd hfind (by simp)
  · subst hu1; subst hs1
    have hfind2 : (users ++ [googleNewUser f1 t1 a1 r1 pg e ph1]).find?
        (isGitHubSubject hp.id) = none := by
      rw [find?_append_of_none _
        (List.find?_eq_none.mpr (by rw [hhp]; exact List.countP_eq_zero.mp hch))]
      simp [List.find?_cons, isGitHubSubject_googleNewUser]
    rcases githubVerify_eq_some _ f2 t2 a2 r2 hp u2 s2 h2 with
      ⟨u, hfind, _, _⟩ | ⟨em, ph2, phs2, _, hem2, hph2, hu2, hs2⟩
    · rw [hfind2] at hfind; exact absurd hfind (by simp)
    · subst hu2
      refine ⟨?_, ?_⟩
      · simpa [googleNewUser, githubNewUser] using hf
      · intro he
        exact hf (congrArg Identity.id he)

/-- Witness for C8: subject id `g-42` reconciled under Google (fresh id 1,
time 0) and then under GitHub (fresh id 2, time 1), from the empty store. -/
theorem c8_cross_provider_non_collision_witness :
    (googleNewUser 1 0 "a1" "r1" gProfileAnn "a@x.com" "A").id ≠
      (githubNewUser 2 1 "a2" "r2" hProfileSameId (some "i@z.com") "I").id ∧
    googleNewUser 1 0 "a1" "r1" gProfileAnn "a@x.com" "A" ≠
      githubNewUser 2 1 "a2" "r2" hProfileSameId (some "i@z.com") "I" :=
  c8_cross_provider_non_collision [] 1 2 0 1 "a1" "a2" "r1" "r2" "g-42"
    gProfileAnn hProfileSameId
    (googleNewUser 1 0 "a1" "r1" gProfileAnn "a@x.com" "A")
    [googleNewUser 1 0 "a1" "r1" gProfileAnn "a@x.com" "A"]
    (githubNewUser 2 1 "a2" "r2" hProfileSameId (some "i@z.com") "I")
    [googleNewUser 1 0 "a1" "r1" gProfileAnn "a@x.com" "A",
      githubNewUser 2 1 "a2" "r2" hProfileSameId (some "i@z.com") "I"]
    rfl rfl (by decide) (by decide) (by decide) rfl rfl

/-- C5 counterexample: the store holds the identity created from
`gProfileAnn` (email `a@x.com`); reconciling again with `gProfileAnnNew`,
whose profile supplies the non-empty email `b@y.com`, returns an identity
whose email is still `a@x.com` — the claimed opportunistic refresh of
`email`/`displayName`/`avatarUrl` does not happen. -/
theorem c5_counterexample_no_refresh :
    (googleVerify [googleNewUser 0 0 "a0" "r0" gProfileAnn "a@x.com" "A"] 1 5 "a1" "r1"
        gProfileAnnNew).map (fun x => x.1.email) = some (some "a@x.com") ∧
    (googleVerify [googleNewUser 0 0 "a0" "r0" gProfileAnn "a@x.com" "A"] 1 5 "a1" "r1"
        gProfileAnnNew).map (fun x => x.1.name) = some (some "Ann") ∧
    gProfileAnnNew.emails = some ["b@y.com"] ∧
    gProfileAnnNew.displayName = some "Ann Barr" ∧
    (some "a@x.com" : Option String) ≠ some "b@y.com" := by
  refine ⟨rfl, rfl, rfl, rfl, by decide⟩

/-- C5 (amended): a subsequent reconcile with the same (provider, subjectId)
never modifies the stored email, displayName or avatar at all — in particular
it never overwrites them with empty or missing values (so reconciling again
with displayName "" leaves the stored name unchanged), but it also never
refreshes them from non-empty new profile values; only `lastLogin` and
`accessToken` are updated. -/
theorem c5_amended_existing_fields_untouched :
    (∀ (users : List Identity) (f t : Nat) (a r : String) (p : GoogleProfile) (u : Identity),
        users.find? (isGoogleSubject p.id) = some u →
        ∃ u' s', googleVerify users f t a r p = some (u', s') ∧
          u'.id = u.id ∧ u'.email = u.email ∧ u'.name = u.name ∧
          u'.avatar = u.avatar ∧ u'.lastLogin = t ∧ u'.accessToken = a) ∧
    (∀ (users : List Identity) (f t : Nat) (a r : String) (p : GitHubProfile) (u : Identity),
        users.find? (isGitHubSubject p.id) = some u →
        ∃ u' s', githubVerify users f t a r p = some (u', s') ∧
          u'.id = u.id ∧ u'.email = u.email ∧ u'.name = u.name ∧
          u'.avatar = u.avatar ∧ u'.lastLogin = t ∧ u'.accessToken = a) := by
  constructor
  · intro users f t a r p u hfind
    exact ⟨_, _, googleVerify_find_some users f t a r p u hfind,
      rfl, rfl, rfl, rfl, rfl, rfl⟩
  · intro users f t a r p u hfind
    exact ⟨_, _, githubVerify_find_some users f t a r p u hfind,
      rfl, rfl, rfl, rfl, rfl, rfl⟩

/-- Witness for the amended C5: a second Google login for subject `g-42`
against the one-identity store, at time 5 with a fresh access token. -/
theorem c5_amended_existing_fields_untouched_witness :
    ∃ u' s',
      googleVerify [googleNewUser 0 0 "a0" "r0" gProfileAnn "a@x.com" "A"] 1 5 "a1" "r1"
        gProfileAnnNew = some (u', s') ∧
      u'.id = (googleNewUser 0 0 "a0" "r0" gProfileAnn "a@x.com" "A").id ∧
      u'.email = (googleNewUser 0 0 "a0" "r0" gProfileAnn "a@x.com" "A").email ∧
      u'.name = (googleNewUser 0 0 "a0" "r0" gProfileAnn "a@x.com" "A").name ∧
      u'.avatar = (googleNewUser 0 0 "a0" "r0" gProfileAnn "a@x.com" "A").avatar ∧
      u'.lastLogin = 5 ∧ u'.accessToken = "a1" :=
  c5_amended_existing_fields_untouched.1
    [googleNewUser 0 0 "a0" "r0" gProfileAnn "a@x.com" "A"] 1 5 "a1" "r1"
    gProfileAnnNew (googleNewUser 0 0 "a0" "r0" gProfileAnn "a@x.com" "A") (by decide)

/-- C3 counterexample: a Google profile with no email (`emails` undefined) and
everything else present makes reconciliation fail (`done(error, null)` from the
thrown `profile.emails[0].value`), contradicting "a profile with no email
still succeeds and stores null for email". -/
theorem c3_counterexample_google_no_email :
    googleVerify [] 0 0 "a" "r" gProfileNoEmail = none ∧
    gProfileNoEmail.emails = none := ⟨rfl, rfl⟩

/-- C3 (amended): only the GitHub callback tolerates the missing optional
fields: for a new subject with photos present, an undefined emails array
yields success with a null email, and a falsy display name falls back to the
login handle; the Google callback fails on a new subject whose profile lacks
emails, and either callback fails when the profile lacks photos. -/
theorem c3_amended_optional_field_tolerance :
    (∀ (users : List Identity) (f t : Nat) (a r : String) (p : GitHubProfile)
        (ph : String) (phs : List String),
        users.find? (isGitHubSubject p.id) = none →
        p.emails = none → p.photos = some (ph :: phs) →
        ∃ u' s', githubVerify users f t a r p = some (u', s') ∧ u'.email = none ∧
          (jsTruthy p.displayName = false → u'.name = p.username)) ∧
    (∀ (users : List Identity) (f t : Nat) (a r : String) (p : GoogleProfile),
        users.find? (isGoogleSubject p.id) = none → p.emails = none →
        googleVerify users f t a r p = none) ∧
    (∀ (users : List Identity) (f t : Nat) (a r : String) (p : GoogleProfile),
        users.find? (isGoogleSubject p.id) = none → p.photos = none →
        googleVerify users f t a r p = none) ∧
    (∀ (users : List Identity) (f t : Nat) (a r : String) (p : GitHubProfile),
        users.find? (isGitHubSubject p.id) = none → p.photos = none →
        githubVerify users f t a r p = none) := by
  refine ⟨?_, ?_, ?_, ?_⟩
  · intro users f t a r p ph phs hfind hem hph
    refine ⟨_, _, githubVerify_find_none users f t a r p none ph phs hfind
      (by rw [hem]; rfl) hph, rfl, ?_⟩
    intro hdn
    simp [githubNewUser, jsOr, hdn]
  · intro users f t a r p hfind hem
    simp [googleVerify, hfind, hem]
  · intro users f t a r p hfind hph
    cases hem : p.emails with
    | none => simp [googleVerify, hfind, hem]
    | some es => cases es <;> simp [googleVerify, hfind, hem, hph]
  · intro users f t a r p hfind hph
    cases hem : githubEmail p.emails with
    | none => simp [githubVerify, hfind, hem]
    | some em => simp [githubVerify, hfind, hem, hph]

/-- Witness for the amended C3: `hProfileBare` (no email, no display name,
photo present) succeeds through the GitHub callback with a null email and the
username as name, while `gProfileNoEmail` fails through the Google callback. -/
theorem c3_amended_optional_field_tolerance_witness :
    (∃ u' s', githubVerify [] 3 2 "a" "r" hProfileBare = some (u', s') ∧
      u'.email = none ∧
      (jsTruthy hProfileBare.displayName = false → u'.name = hProfileBare.username)) ∧
    googleVerify [] 0 0 "a" "r" gProfileNoEmail = none :=
  ⟨c3_amended_optional_field_tolerance.1 [] 3 2 "a" "r" hProfileBare "H" [] rfl rfl rfl,
   c3_amended_optional_field_tolerance.2.1 [] 0 0 "a" "r" gProfileNoEmail rfl rfl⟩

theorem mk_data (s : String) : String.mk s.data = s := rfl

theorem authenticateJWT_error (decode : String → TokenString) (now : Nat) (h : String)
    (e : VerifyError) (hne : h ≠ "")
    (hv : jwtVerify decode ((jsSplitSpace h)[1]?) now = .error e) :
    authenticateJWT decode now (some h) = .rejected 403 "Token non valido" := by
  simp [authenticateJWT, jsTruthy, hne, hv, Option.getD]

theorem authenticateJWT_ok (decode : String → TokenString) (now : Nat) (h : String)
    (c : Claims) (hne : h ≠ "")
    (hv : jwtVerify decode ((jsSplitSpace h)[1]?) now = .ok c) :
    authenticateJWT decode now (some h) = .ok c := by
  simp [authenticateJWT, jsTruthy, hne, hv, Option.getD]

theorem splitSpAux_no_space : ∀ l : List Char, ' ' ∉ l → splitSpAux l = [l] := by
  intro l hl
  induction l with
  | nil => rfl
  | cons c cs ih =>
    have hc : ¬ c = ' ' := fun hc => hl (hc ▸ List.mem_cons_self c cs)
    have hcs : ' ' ∉ cs := fun hm => hl (List.mem_cons_of_mem c hm)
    simp [splitSpAux, hc, ih hcs]

theorem splitSpAux_append (l₂ : List Char) : ∀ l₁ : List Char, ' ' ∉ l₁ →
    splitSpAux (l₁ ++ ' ' :: l₂) = l₁ :: splitSpAux l₂ := by
  intro l₁ hl
  induction l₁ with
  | nil => simp [splitSpAux]
  | cons c cs ih =>
    have hc : ¬ c = ' ' := fun hc => hl (hc ▸ List.mem_cons_self c cs)
    have hcs : ' ' ∉ cs := fun hm => hl (List.mem_cons_of_mem c hm)
    simp [splitSpAux, hc, ih hcs]

theorem jsSplitSpace_two_parts (w tok : String) (hw : ' ' ∉ w.data)
    (ht : ' ' ∉ tok.data) : jsSplitSpace (w ++ " " ++ tok) = [w, tok] := by
  have hdata : (w ++ " " ++ tok).data = w.data ++ ' ' :: tok.data := by
    simp [String.data_append]
  rw [jsSplitSpace, hdata, splitSpAux_append tok.data w.data hw,
    splitSpAux_no_space tok.data ht]
  simp [mk_data]

theorem scheme_header_ne_empty (w tok : String) : w ++ " " ++ tok ≠ "" := by
  intro hc
  have h2 : (w ++ " " ++ tok).data = ("" : String).data := by rw [hc]
  simp [String.data_append] at h2

/-- C4 counterexample: at time 10 the decoded token behind `staletok` is
well-signed but expired, the one behind `garbage` is malformed; the gate
answers both with the identical `403 Token non valido` response — expired and
malformed tokens do NOT yield distinct reason codes. -/
theorem c4_counterexample_same_rejection :
    jwtVerify decodeEx (some "staletok") 10 = .error .expired ∧
    jwtVerify decodeEx (some "garbage") 10 = .error .malformed ∧
    authenticateJWT decodeEx 10 (some "Bearer staletok") =
      AuthResult.rejected 403 "Token non valido" ∧
    authenticateJWT decodeEx 10 (some "Bearer garbage") =
      AuthResult.rejected 403 "Token non valido" ∧
    authenticateJWT decodeEx 10 (some "Bearer staletok") =
      authenticateJWT decodeEx 10 (some "Bearer garbage") :=
  ⟨rfl, rfl, rfl, rfl, rfl⟩

/-- C4 (amended): an expired token and a malformed/forged token are NOT
distinguishable through the bearer-token gate: every verification error —
expired or malformed alike — is mapped to the same `403 Token non valido`
response, so the two rejection outcomes coincide. -/
theorem c4_amended_uniform_rejection :
    ∀ (decode : String → TokenString) (now : Nat) (h1 h2 : String),
      h1 ≠ "" → h2 ≠ "" →
      jwtVerify decode ((jsSplitSpace h1)[1]?) now = .error .expired →
      jwtVerify decode ((jsSplitSpace h2)[1]?) now = .error .malformed →
      authenticateJWT decode now (some h1) = AuthResult.rejected 403 "Token non valido" ∧
      authenticateJWT decode now (some h2) = AuthResult.rejected 403 "Token non valido" ∧
      authenticateJWT decode now (some h1) = authenticateJWT decode now (some h2) := by
  intro decode now h1 h2 hne1 hne2 hv1 hv2
  have r1 := authenticateJWT_error decode now h1 .expired hne1 hv1
  have r2 := authenticateJWT_error decode now h2 .malformed hne2 hv2
  exact ⟨r1, r2, by rw [r1, r2]⟩

/-- Witness for the amended C4: the concrete expired and malformed headers of
the counterexample, through the general theorem. -/
theorem c4_amended_uniform_rejection_witness :
    authenticateJWT decodeEx 10 (some "Bearer staletok") =
      AuthResult.rejected 403 "Token non valido" ∧
    authenticateJWT decodeEx 10 (some "Bearer garbage") =
      AuthResult.rejected 403 "Token non valido" ∧
    authenticateJWT decodeEx 10 (some "Bearer staletok") =
      authenticateJWT decodeEx 10 (some "Bearer garbage") :=
  c4_amended_uniform_rejection decodeEx 10 "Bearer staletok" "Bearer garbage"
    (by decide) (by decide) rfl rfl

/-- C6: a missing Authorization header is rejected 401 ("Token di accesso
richiesto"), while a present (non-empty) header whose token fails verification
is rejected 403 ("Token non valido"); the two rejection outcomes are distinct. -/
theorem c6_missing_vs_invalid_credential :
    (∀ (decode : String → TokenString) (now : Nat),
        authenticateJWT decode now none =
          AuthResult.rejected 401 "Token di accesso richiesto") ∧
    (∀ (decode : String → TokenString) (now : Nat) (h : String) (e : VerifyError),
        h ≠ "" →
        jwtVerify decode ((jsSplitSpace h)[1]?) now = .error e →
        authenticateJWT decode now (some h) =
          AuthResult.rejected 403 "Token non valido") ∧
    AuthResult.rejected 401 "Token di accesso richiesto" ≠
      AuthResult.rejected 403 "Token non valido" := by
  refine ⟨fun _ _ => rfl, ?_, by decide⟩
  intro decode now h e hne hv
  exact authenticateJWT_error decode now h e hne hv

/-- Witness for C6: no header versus the header `Bearer garbage` under the
concrete decode function, at time 10. -/
theorem c6_missing_vs_invalid_credential_witness :
    authenticateJWT decodeEx 10 none =
      AuthResult.rejected 401 "Token di accesso richiesto" ∧
    authenticateJWT decodeEx 10 (some "Bearer garbage") =
      AuthResult.rejected 403 "Token non valido" :=
  ⟨c6_missing_vs_invalid_credential.1 decodeEx 10,
   c6_missing_vs_invalid_credential.2.1 decodeEx 10 "Bearer garbage" .malformed
     (by decide) rfl⟩

/-- C10: the gate never checks the scheme word of the Authorization header —
any header `<anything> <token>` whose second part verifies is authorized,
whatever the first word is; and a non-empty header with no second
space-separated part is rejected 403 as an invalid token, not 401 as a
missing credential. -/
theorem c10_scheme_never_checked :
    (∀ (decode : String → TokenString) (now : Nat) (w tok : String) (c : Claims),
        ' ' ∉ w.data → ' ' ∉ tok.data →
        jwtVerify decode (some tok) now = .ok c →
        authenticateJWT decode now (some (w ++ " " ++ tok)) = .ok c) ∧
    (∀ (decode : String → TokenString) (now : Nat) (h : String),
        h ≠ "" → (jsSplitSpace h)[1]? = none →
        authenticateJWT decode now (some h) =
          AuthResult.rejected 403 "Token non valido") := by
  constructor
  · intro decode now w tok c hw ht hv
    refine authenticateJWT_ok decode now _ c (scheme_header_ne_empty w tok) ?_
    rw [jsSplitSpace_two_parts w tok hw ht]
    exact hv
  · intro decode now h hne hnone
    refine authenticateJWT_error decode now h .malformed hne ?_
    rw [hnone]
    rfl

/-- Witness for C10: the scheme word `NotBearer` with a valid token is
authorized, and the schemeless header `goodtok` (no space) is rejected 403. -/
theorem c10_scheme_never_checked_witness :
    authenticateJWT decodeEx 10 (some ("NotBearer" ++ " " ++ "goodtok")) =
      AuthResult.ok claimsAnn ∧
    authenticateJWT decodeEx 10 (some "goodtok") =
      AuthResult.rejected 403 "Token non valido" :=
  ⟨c10_scheme_never_checked.1 decodeEx 10 "NotBearer" "goodtok" claimsAnn
     (by decide) (by decide) rfl,
   c10_scheme_never_checked.2 decodeEx 10 "goodtok" (by decide) rfl⟩

theorem find?_of_countP_ne_zero {p : α → Bool} {l : List α} (h : l.countP p ≠ 0) :
    ∃ a, l.find? p = some a := by
  cases hf : l.find? p with
  | some a => exact ⟨a, rfl⟩
  | none => exact absurd (List.countP_eq_zero.mpr (List.find?_eq_none.mp hf)) h

theorem runOps_cons (users : List Identity) (op : ReconcileOp) (ops : List ReconcileOp) :
    runOps users (op :: ops) = runOps (applyOp users op) ops := rfl

theorem countGoogle_applyOp_create (users : List Identity) (op : ReconcileOp) (s : String)
    (hop : googleOpFor s op = true) (h0 : countGoogle users s = 0) :
    countGoogle (applyOp users op) s = 1 := by
  cases op with
  | github f n a r p => simp [googleOpFor] at hop
  | google f n a r p =>
    simp only [googleOpFor, Bool.and_eq_true, beq_iff_eq] at hop
    obtain ⟨⟨hid, hem⟩, hph⟩ := hop
    subst hid
    obtain ⟨e, es, hem2⟩ : ∃ e es, p.emails = some (e :: es) := by
      cases h : p.emails with
      | none => rw [h] at hem; simp at hem
      | some l =>
        cases l with
        | nil => rw [h] at hem; simp at hem
        | cons e es => exact ⟨e, es, rfl⟩
    obtain ⟨ph, phs, hph2⟩ : ∃ ph phs, p.photos = some (ph :: phs) := by
      cases h : p.photos with
      | none => rw [h] at hph; simp at hph
      | some l =>
        cases l with
        | nil => rw [h] at hph; simp at hph
        | cons ph phs => exact ⟨ph, phs, rfl⟩
    have hfind : users.find? (isGoogleSubject p.id) = none :=
      List.find?_eq_none.mpr (List.countP_eq_zero.mp h0)
    have hver := googleVerify_find_none users f n a r p e es ph phs hfind hem2 hph2
    have h0c : users.countP (isGoogleSubject p.id) = 0 := h0
    simp [applyOp, hver, countGoogle, List.countP_append, List.countP_cons,
      isGoogleSubject_googleNewUser, h0c]

theorem countGoogle_applyOp_update (users : List Identity) (op : ReconcileOp) (s : String)
    (hop : googleOpFor s op = true) (h1 : countGoogle users s ≠ 0) :
    countGoogle (applyOp users op) s = countGoogle users s := by
  cases op with
  | github f n a r p => simp [googleOpFor] at hop
  | google f n a r p =>
    simp only [googleOpFor, Bool.and_eq_true, beq_iff_eq] at hop
    obtain ⟨⟨hid, _⟩, _⟩ := hop
    subst hid
    obtain ⟨u, hfind⟩ := find?_of_countP_ne_zero h1
    have hver := googleVerify_find_some users f n a r p u hfind
    simp [applyOp, hver, countGoogle,
      countP_replaceFirst (fun x => isGoogleSubject_touchLogin p.id n a x)]

theorem countGoogle_runOps_stay_one (s : String) (ops : List ReconcileOp) :
    ∀ users : List Identity, (∀ op ∈ ops, googleOpFor s op = true) →
      countGoogle users s = 1 → countGoogle (runOps users ops) s = 1 := by
  induction ops with
  | nil => exact fun users _ h => h
  | cons op ops ih =>
    intro users hall h1
    rw [runOps_cons]
    refine ih (applyOp users op) (fun o ho => hall o (List.mem_cons_of_mem _ ho)) ?_
    rw [countGoogle_applyOp_update users op s (hall op (List.mem_cons_self _ _))
      (by omega), h1]

theorem countGitHub_applyOp_create (users : List Identity) (op : ReconcileOp) (s : String)
    (hop : githubOpFor s op = true) (h0 : countGitHub users s = 0) :
    countGitHub (applyOp users op) s = 1 := by
  cases op with
  | google f n a r p => simp [githubOpFor] at hop
  | github f n a r p =>
    simp only [githubOpFor, Bool.and_eq_true, beq_iff_eq] at hop
    obtain ⟨⟨hid, hem⟩, hph⟩ := hop
    subst hid
    obtain ⟨em, hem2⟩ : ∃ em, githubEmail p.emails = some em := by
      cases h : githubEmail p.emails with
      | none => rw [h] at hem; simp at hem
      | some em => exact ⟨em, rfl⟩
    obtain ⟨ph, phs, hph2⟩ : ∃ ph phs, p.photos = some (ph :: phs) := by
      cases h : p.photos with
      | none => rw [h] at hph; simp at hph
      | some l =>
        cases l with
        | nil => rw [h] at hph; simp at hph
        | cons ph phs => exact ⟨ph, phs, rfl⟩
    have hfind : users.find? (isGitHubSubject p.id) = none :=
      List.find?_eq_none.mpr (List.countP_eq_zero.mp h0)
    have hver := githubVerify_find_none users f n a r p em ph phs hfind hem2 hph2
    have h0c : users.countP (isGitHubSubject p.id) = 0 := h0
    simp [applyOp, hver, countGitHub, List.countP_append, List.countP_cons,
      isGitHubSubject_githubNewUser, h0c]

theorem countGitHub_applyOp_update (users : List Identity) (op : ReconcileOp) (s : String)
    (hop : githubOpFor s op = true) (h1 : countGitHub users s ≠ 0) :
    countGitHub (applyOp users op) s = countGitHub users s := by
  cases op with
  | google f n a r p => simp [githubOpFor] at hop
  | github f n a r p =>
    simp only [githubOpFor, Bool.and_eq_true, beq_iff_eq] at hop
    obtain ⟨⟨hid, _⟩, _⟩ := hop
    subst hid
    obtain ⟨u, hfind⟩ := find?_of_countP_ne_zero h1
    have hver := githubVerify_find_some users f n a r p u hfind
    simp [applyOp, hver, countGitHub,
      countP_replaceFirst (fun x => isGitHubSubject_touchLogin p.id n a x)]

theorem countGitHub_runOps_stay_one (s : String) (ops : List ReconcileOp) :
    ∀ users : List Identity, (∀ op ∈ ops, githubOpFor s op = true) →
      countGitHub users s = 1 → countGitHub (runOps users ops) s = 1 := by
  induction ops with
  | nil => exact fun users _ h => h
  | cons op ops ih =>
    intro users hall h1
    rw [runOps_cons]
    refine ih (applyOp users op) (fun o ho => hall o (List.mem_cons_of_mem _ ho)) ?_
    rw [countGitHub_applyOp_update users op s (hall op (List.mem_cons_self _ _))
      (by omega), h1]

/-- C9: firing any positive number of reconcile calls for an identical new
(provider, subjectId) — each one a whole verify-callback step, since the
callback body has no await point between the lookup and `users.set`, so Node's
run-to-completion event loop executes concurrent callbacks as some sequential
composition — results in exactly one stored identity for that subject, not
one per call. -/
theorem c9_concurrent_callback_safety :
    (∀ (s : String) (users : List Identity) (ops : List ReconcileOp),
        ops ≠ [] → (∀ op ∈ ops, googleOpFor s op = true) →
        countGoogle users s = 0 → countGoogle (runOps users ops) s = 1) ∧
    (∀ (s : String) (users : List Identity) (ops : List ReconcileOp),
        ops ≠ [] → (∀ op ∈ ops, githubOpFor s op = true) →
        countGitHub users s = 0 → countGitHub (runOps users ops) s = 1) := by
  constructor
  · intro s users ops hne hall h0
    cases ops with
    | nil => exact absurd rfl hne
    | cons op ops =>
      rw [runOps_cons]
      exact countGoogle_runOps_stay_one s ops (applyOp users op)
        (fun o ho => hall o (List.mem_cons_of_mem _ ho))
        (countGoogle_applyOp_create users op s (hall op (List.mem_cons_self _ _)) h0)
  · intro s users ops hne hall h0
    cases ops with
    | nil => exact absurd rfl hne
    | cons op ops =>
      rw [runOps_cons]
      exact countGitHub_runOps_stay_one s ops (applyOp users op)
        (fun o ho => hall o (List.mem_cons_of_mem _ ho))
        (countGitHub_applyOp_create users op s (hall op (List.mem_cons_self _ _)) h0)

/-- Witness for C9: three Google callbacks for the same new subject `g-42`
(distinct fresh ids 1, 2, 3) leave exactly one identity for that subject. -/
theorem c9_concurrent_callback_safety_witness :
    countGoogle (runOps []
      [ReconcileOp.google 1 0 "a1" "r1" gProfileAnn,
       ReconcileOp.google 2 0 "a2" "r2" gProfileAnn,
       ReconcileOp.google 3 1 "a3" "r3" gProfileAnn]) "g-42" = 1 :=
  c9_concurrent_callback_safety.1 "g-42" []
    [ReconcileOp.google 1 0 "a1" "r1" gProfileAnn,
     ReconcileOp.google 2 0 "a2" "r2" gProfileAnn,
     ReconcileOp.google 3 1 "a3" "r3" gProfileAnn]
    (List.cons_ne_nil _ _) (by decide) rfl

end OAuthServer
